import Mathlib

/-!
Shallow embedding of the task-manager core (React task list application).

Sources embedded:
  * `TaskContext.js` — the Task Repository: `addTask`, `toggleTask`,
    `updateTask`, `deleteTask`, `clearCompleted`, `getFilteredTasks`,
    `taskStats`.
  * `TaskItem.js` — the `dueDateStatus` derived view.
  * `TaskForm.js` — the `validateForm` validation function.

Modelling conventions:
  * Timestamps (`Date.now()`, `new Date().getTime()`) are integers counting
    milliseconds; the runtime timezone is fixed to UTC, so
    `setHours(0,0,0,0)` truncates a timestamp to the enclosing multiple of
    86400000 ms, and a date-input string "YYYY-MM-DD" parses to the UTC
    midnight of that calendar day (an integer number of milliseconds).
  * `Math.random()` is an oracle input: each call site receives an arbitrary
    rational in [0, 1).  Task ids (`Date.now() + Math.random()`) are
    rationals: JS numbers are a subset of the rationals.  The id sum is
    taken exactly; the rounding of IEEE-754 double addition (which at
    current-era timestamps merges sums within half an ulp, about 2^-13 ms)
    is not modelled.  No theorem below derives id distinctness from this
    addition; ids are only evaluated at inputs (small integers and zero)
    where double addition is exact, so those evaluations agree with the
    source.
  * Optional / possibly-absent JS values are `Option`; the JS falsy test
    `x || d` on a string collapses both `undefined` and `""` to the default.
  * `updateTask`'s `updates` object (spread-merged over the task) is a
    record of optional fields, one per task field it can overwrite.
-/

namespace TaskTodo

/-- A task entity, as constructed by `addTask` in `TaskContext.js`. -/
structure Task where
  id : ℚ
  text : String
  description : String
  priority : String
  dueDate : Option Int
  completed : Bool
  createdAt : Int
  completedAt : Option Int
deriving DecidableEq, Repr

/-- The draft object passed to `addTask` (`taskData` in `TaskContext.js`):
`text` is required, the other fields may be absent (or empty, which the
falsy tests in the source treat the same way). -/
structure TaskData where
  text : String
  description : Option String
  priority : Option String
  dueDate : Option Int
deriving DecidableEq, Repr

/-- `new Date().toISOString()` / `Date.now()` both denote the current
instant; in the embedding a single integer `now` stands for both. -/
def msPerDay : Int := 1000 * 60 * 60 * 24

/-- JavaScript's `String.prototype.trim()`: strip leading and trailing
whitespace.  Defined over the character list so it evaluates by kernel
reduction (Lean's own `String.trim` does not). -/
def jsTrim (s : String) : String :=
  ⟨((s.data.dropWhile Char.isWhitespace).reverse.dropWhile
      Char.isWhitespace).reverse⟩

/-- The task built inside `addTask`:
`{ id: Date.now() + Math.random(), text: taskData.text.trim(),
   description: taskData.description?.trim() || '',
   priority: taskData.priority || 'medium',
   dueDate: taskData.dueDate || null, completed: false,
   createdAt: new Date().toISOString(), completedAt: null }`. -/
def newTask (taskData : TaskData) (now : Int) (rand : ℚ) : Task :=
  { id := (now : ℚ) + rand
    text := jsTrim taskData.text
    description :=
      match taskData.description with
      | none => ""
      | some d => if jsTrim d = "" then "" else jsTrim d
    priority :=
      match taskData.priority with
      | none => "medium"
      | some p => if p = "" then "medium" else p
    dueDate := taskData.dueDate
    completed := false
    createdAt := now
    completedAt := none }

/-- `addTask`: `setTasks(prevTasks => [...prevTasks, newTask])`. -/
def addTask (tasks : List Task) (taskData : TaskData) (now : Int)
    (rand : ℚ) : List Task :=
  tasks ++ [newTask taskData now rand]

/-- `toggleTask`: map over the collection; on the matching id flip
`completed` and set `completedAt` to now when newly completed, else null. -/
def toggleTask (tasks : List Task) (id : ℚ) (now : Int) : List Task :=
  tasks.map fun task =>
    if task.id = id then
      { task with
        completed := !task.completed
        completedAt := if !task.completed then some now else none }
    else task

/-- The `updates` object of `updateTask`: `{ ...task, ...updates }` merges
any subset of the task's own fields onto it, so each field is optional. -/
structure TaskPatch where
  id : Option ℚ := none
  text : Option String := none
  description : Option String := none
  priority : Option String := none
  dueDate : Option (Option Int) := none
  completed : Option Bool := none
  createdAt : Option Int := none
  completedAt : Option (Option Int) := none
deriving DecidableEq, Repr

/-- The spread merge `{ ...task, ...updates }`. -/
def applyPatch (task : Task) (p : TaskPatch) : Task :=
  { id := p.id.getD task.id
    text := p.text.getD task.text
    description := p.description.getD task.description
    priority := p.priority.getD task.priority
    dueDate := p.dueDate.getD task.dueDate
    completed := p.completed.getD task.completed
    createdAt := p.createdAt.getD task.createdAt
    completedAt := p.completedAt.getD task.completedAt }

/-- `updateTask`: map over the collection; merge `updates` onto the
matching task. -/
def updateTask (tasks : List Task) (id : ℚ) (updates : TaskPatch) :
    List Task :=
  tasks.map fun task => if task.id = id then applyPatch task updates else task

/-- `deleteTask`: `prevTasks.filter(task => task.id !== id)`. -/
def deleteTask (tasks : List Task) (id : ℚ) : List Task :=
  tasks.filter fun task => task.id ≠ id

/-- `clearCompleted`: `prevTasks.filter(task => !task.completed)`. -/
def clearCompleted (tasks : List Task) : List Task :=
  tasks.filter fun task => !task.completed

/-- `getFilteredTasks`: switch on the filter string; `'completed'` and
`'pending'` filter, every other value (the `default` branch, which includes
`'all'`) returns the collection itself. -/
def getFilteredTasks (tasks : List Task) (filter : String) : List Task :=
  match filter with
  | "completed" => tasks.filter fun task => task.completed
  | "pending" => tasks.filter fun task => !task.completed
  | _ => tasks

/-- `taskStats`: total, completed and pending counts. -/
structure Stats where
  total : Nat
  completed : Nat
  pending : Nat
deriving DecidableEq, Repr

/-- `taskStats` from `TaskContext.js`. -/
def taskStats (tasks : List Task) : Stats :=
  { total := tasks.length
    completed := (tasks.filter fun task => task.completed).length
    pending := tasks.length - (tasks.filter fun task => task.completed).length }

/-- One Repository mutation, with the ambient `Date.now()` / `Math.random()`
values its call observes given as oracle data. -/
inductive Op where
  | add (taskData : TaskData) (now : Int) (rand : ℚ)
  | toggle (id : ℚ) (now : Int)
  | update (id : ℚ) (updates : TaskPatch)
  | del (id : ℚ)
  | clear
deriving DecidableEq, Repr

/-- Apply one Repository operation to the collection. -/
def applyOp (tasks : List Task) : Op → List Task
  | .add taskData now rand => addTask tasks taskData now rand
  | .toggle id now => toggleTask tasks id now
  | .update id updates => updateTask tasks id updates
  | .del id => deleteTask tasks id
  | .clear => clearCompleted tasks

/-- Run a sequence of Repository operations from the empty collection
(the `useLocalStorage('tasks', [])` default). -/
def runOps (ops : List Op) : List Task := ops.foldl applyOp []

/-- One `addTask` call together with the `Date.now()` and `Math.random()`
values it observes. -/
structure AddCall where
  taskData : TaskData
  now : Int
  rand : ℚ
deriving DecidableEq, Repr

/-- Run a sequence of `addTask` calls from a starting collection. -/
def runAdds (start : List Task) (calls : List AddCall) : List Task :=
  calls.foldl (fun tasks c => addTask tasks c.taskData c.now c.rand) start

/-! ### Derived view: due-date classification (`TaskItem.js`) -/

/-- The object returned by the `dueDateStatus` memo in `TaskItem.js`
(`class` is a Lean keyword, so that field is named `cssClass`). -/
structure DueInfo where
  status : String
  label : String
  cssClass : String
deriving DecidableEq, Repr

/-- Integer ceiling division (`Math.ceil(a / b)` for `b > 0`): for integral
millisecond inputs the JS float division followed by `Math.ceil` agrees
with exact ceiling division, since quotients of realistic timestamps are
never within a double ulp of a different integer. -/
def ceilDiv (a b : Int) : Int := -((-a).fdiv b)

/-- `dueDate.toLocaleDateString()` for the parsed due date: an injective
day-granularity rendering standing in for the locale-dependent format
(the due date parses to a UTC midnight, so it is determined by its day). -/
def localeDateString (t : Int) : String := toString (t.fdiv msPerDay)

/-- The `dueDateStatus` memo of `TaskItem.js`: `null` when `task.dueDate`
is unset; otherwise classify by
`diffDays = Math.ceil((dueDate - now) / 86400000)`. -/
def dueDateStatus (dueDate : Option Int) (now : Int) : Option DueInfo :=
  match dueDate with
  | none => none
  | some due =>
    let diffTime : Int := due - now
    let diffDays : Int := ceilDiv diffTime msPerDay
    if diffDays < 0 then
      some { status := "overdue"
             label := "Overdue by " ++ toString diffDays.natAbs ++ " day" ++
               (if diffDays.natAbs ≠ 1 then "s" else "")
             cssClass := "due-overdue" }
    else if diffDays = 0 then
      some { status := "today", label := "Due today", cssClass := "due-today" }
    else if diffDays ≤ 3 then
      some { status := "soon"
             label := "Due in " ++ toString diffDays ++ " day" ++
               (if diffDays ≠ 1 then "s" else "")
             cssClass := "due-upcoming" }
    else
      some { status := "later", label := "Due " ++ localeDateString due
             cssClass := "due-upcoming" }

/-! ### Validation (`TaskForm.js`) -/

/-- The `formData` state of `TaskForm.js`.  The date input holds either the
empty string or a "YYYY-MM-DD" value; `dueDate = none` encodes the empty
string and `some d` the UTC midnight that `new Date("YYYY-MM-DD")`
parses to. -/
structure FormData where
  text : String
  description : String
  priority : String
  dueDate : Option Int
deriving DecidableEq, Repr

/-- The `newErrors` object of `validateForm`: at most one message per
field. -/
structure FormErrors where
  text : Option String := none
  description : Option String := none
  dueDate : Option String := none
deriving DecidableEq, Repr

/-- `today.setHours(0,0,0,0)` with the runtime timezone fixed to UTC:
truncate the timestamp to the enclosing multiple of a day. -/
def dayStart (t : Int) : Int := t.fdiv msPerDay * msPerDay

/-- `validateForm` from `TaskForm.js`: required / 100-character check on the
title (an `else if`, so at most one of the two), 300-character check on a
non-empty description, and past-date check on a non-empty due date against
today's local midnight. -/
def validateForm (formData : FormData) (now : Int) : FormErrors :=
  { text :=
      if jsTrim formData.text = "" then some "Task title is required"
      else if formData.text.length > 100 then
        some "Title cannot exceed 100 characters"
      else none
    description :=
      if formData.description != "" && formData.description.length > 300 then
        some "Description cannot exceed 300 characters"
      else none
    dueDate :=
      match formData.dueDate with
      | none => none
      | some due =>
        if due < dayStart now then some "Due date cannot be in the past"
        else none }

/-! ### Concrete sample data used by witnesses and counterexamples -/

/-- A pending sample task. -/
def demoPending : Task :=
  { id := 1, text := "Buy milk", description := "", priority := "medium",
    dueDate := none, completed := false, createdAt := 0, completedAt := none }

/-- A completed sample task. -/
def demoDone : Task :=
  { id := 2, text := "Write report", description := "notes", priority := "high",
    dueDate := some 86400000, completed := true, createdAt := 0,
    completedAt := some 3600000 }

/-- A small sample collection with one pending and one completed task. -/
def demoTasks : List Task := [demoPending, demoDone]

/-- The empty `updates` object. -/
def emptyPatch : TaskPatch := {}

/-- Interleave two lists back together, guided by the original collection:
walk the guide and draw the next element from the first list when the
guide's task is completed, from the second one otherwise.  Applied to the
"completed" and "pending" filter results with the collection itself as
guide, this puts every task back at its original position. -/
def interleaveBy : List Task → List Task → List Task → List Task
  | [], _, _ => []
  | g :: gs, cs, ps =>
    if g.completed then
      match cs with
      | [] => []
      | c :: cs2 => c :: interleaveBy gs cs2 ps
    else
      match ps with
      | [] => []
      | p :: ps2 => p :: interleaveBy gs cs ps2

/-- A task's `completedAt` is exactly what completion under the fixed
clock `now` would have produced: `now` itself when completed, cleared
otherwise. -/
def clockConsistent (now : Int) (t : Task) : Prop :=
  t.completedAt = if t.completed then some now else none

instance (now : Int) (t : Task) : Decidable (clockConsistent now t) := by
  unfold clockConsistent; infer_instance

/-- A clock-consistent two-task collection (used by the C6 witness). -/
def demoClockTasks : List Task :=
  [{ id := 1, text := "Buy milk", description := "", priority := "medium",
     dueDate := none, completed := false, createdAt := 0, completedAt := none },
   { id := 2, text := "Write report", description := "", priority := "high",
     dueDate := none, completed := true, createdAt := 0, completedAt := some 5 }]

/-- A task completed at time 0 (used by the C6 counterexample, toggled
twice under the fixed clock 5). -/
def cexClockTask : Task :=
  { id := 1, text := "Old", description := "", priority := "medium",
    dueDate := none, completed := true, createdAt := 0, completedAt := some 0 }

/-- The invariant of claim C1, as a boolean: `completedAt` is present iff
`completed` is true. -/
def completionConsistent (t : Task) : Bool :=
  t.completedAt.isSome == t.completed

/-- An operation is benign for the completion invariant: anything except an
`updateTask` whose patch overwrites `completed` or `completedAt`. -/
def keepsCompletion : Op → Bool
  | .update _ updates => updates.completed == none && updates.completedAt == none
  | _ => true

/-- The operation sequence of the C1 counterexample: add one task, then
patch `completed := true` onto it without touching `completedAt` (exactly
what `{ ...task, ...updates }` permits). -/
def cexOps : List Op :=
  [Op.add { text := "a", description := none, priority := none,
            dueDate := none } 0 0,
   Op.update 0 { completed := some true }]

/-- A benign operation sequence (used by the C1 witness): add, toggle,
add, clear. -/
def demoOps : List Op :=
  [Op.add { text := "a", description := none, priority := none,
            dueDate := none } 0 0,
   Op.toggle 0 10,
   Op.add { text := "b", description := some " hi ", priority := some "low",
            dueDate := some 86400000 } 20 (1/2),
   Op.clear]

/-- Two `addTask` calls in the same millisecond whose `Math.random()`
values coincide: the id generator returns the same number twice (the C2
failing input).  At these values the rational id arithmetic agrees exactly
with IEEE-754 double arithmetic. -/
def cexCalls : List AddCall :=
  [{ taskData := { text := "first", description := none, priority := none,
                   dueDate := none }, now := 0, rand := 0 },
   { taskData := { text := "second", description := none, priority := none,
                   dueDate := none }, now := 0, rand := 0 }]

/-- A valid draft whose `priority` is a non-empty string outside
{low, medium, high}. -/
def cexDraft : TaskData :=
  { text := "Ship it", description := none, priority := some "urgent",
    dueDate := none }

/-- A whitespace-only title longer than the 100-character limit. -/
def cexForm : FormData :=
  { text := String.mk (List.replicate 101 ' '), description := ""
    priority := "medium", dueDate := none }

/-- A form with a due date one day before now. -/
def demoForm : FormData :=
  { text := "Buy milk", description := "", priority := "medium"
    dueDate := some (-86400000) }

/-! ### C7: clearCompleted -/

/-- Claim C7: `clearCompleted()` produces exactly the tasks whose
`completed` flag is false, in their original relative order with every
field unchanged; the result has zero completed tasks, and if no task was
completed the collection is unchanged. -/
theorem clearCompleted_spec (tasks : List Task) :
    (∀ t ∈ clearCompleted tasks, t.completed = false) ∧
    (clearCompleted tasks).Sublist tasks ∧
    (∀ t : Task, t.completed = false →
      (clearCompleted tasks).count t = tasks.count t) ∧
    ((∀ t ∈ tasks, t.completed = false) → clearCompleted tasks = tasks) := by
  refine ⟨fun t ht => ?_, List.filter_sublist tasks, fun t ht => ?_, fun h => ?_⟩
  · have h2 := (List.mem_filter.mp ht).2
    simpa using h2
  · exact List.count_filter (by simpa using ht)
  · exact List.filter_eq_self.mpr fun t htm => by simpa using h t htm

/-- Witness for C7 at the sample collection. -/
theorem clearCompleted_spec_witness :
    (∀ t ∈ clearCompleted demoTasks, t.completed = false) ∧
    (clearCompleted demoTasks).Sublist demoTasks ∧
    (∀ t : Task, t.completed = false →
      (clearCompleted demoTasks).count t = demoTasks.count t) ∧
    ((∀ t ∈ demoTasks, t.completed = false) →
      clearCompleted demoTasks = demoTasks) :=
  clearCompleted_spec demoTasks

/-! ### C8: unknown-id mutation is a silent no-op -/

/-- Claim C8: for an id matching no task, `toggleTask`, `updateTask` (any
patch) and `deleteTask` all return the collection unchanged. -/
theorem notFound_noop (tasks : List Task) (id : ℚ) (now : Int)
    (updates : TaskPatch) (h : ∀ t ∈ tasks, t.id ≠ id) :
    toggleTask tasks id now = tasks ∧ updateTask tasks id updates = tasks ∧
      deleteTask tasks id = tasks := by
  refine ⟨?_, ?_, ?_⟩
  · unfold toggleTask
    conv_rhs => rw [← List.map_id tasks]
    exact List.map_congr_left fun t ht => by simp [h t ht]
  · unfold updateTask
    conv_rhs => rw [← List.map_id tasks]
    exact List.map_congr_left fun t ht => by simp [h t ht]
  · exact List.filter_eq_self.mpr fun t ht => by simp [h t ht]

/-- Witness for C8: id 99 matches nothing in the sample collection. -/
theorem notFound_noop_witness :
    toggleTask demoTasks 99 7 = demoTasks ∧
      updateTask demoTasks 99 emptyPatch = demoTasks ∧
      deleteTask demoTasks 99 = demoTasks :=
  notFound_noop demoTasks 99 7 emptyPatch (by decide)

/-! ### C10: unrecognized filter values fall back to the whole collection -/

/-- Claim C10: any filter value other than "completed" and "pending"
(including "all" and unrecognized strings) returns the full collection
unchanged. -/
theorem getFilteredTasks_default (tasks : List Task) (filter : String)
    (h1 : filter ≠ "completed") (h2 : filter ≠ "pending") :
    getFilteredTasks tasks filter = tasks := by
  unfold getFilteredTasks
  split <;> simp_all

/-- Witness for C10 at an unrecognized filter string. -/
theorem getFilteredTasks_default_witness :
    getFilteredTasks demoTasks "bogus" = demoTasks :=
  getFilteredTasks_default demoTasks "bogus" (by decide) (by decide)

/-! ### C9: the three filters partition the collection -/

/-- Claim C9: `getFilteredTasks` with "all" is the full sequence in order;
"pending" and "completed" are the order-preserving subsequences of
uncompleted resp. completed tasks, they contain every such task, and
interleaving the two results back by original position reconstructs the
"all" view. -/
theorem getFilteredTasks_partition (tasks : List Task) :
    getFilteredTasks tasks "all" = tasks ∧
    (getFilteredTasks tasks "pending").Sublist tasks ∧
    (∀ t ∈ getFilteredTasks tasks "pending", t.completed = false) ∧
    (∀ t ∈ tasks, t.completed = false → t ∈ getFilteredTasks tasks "pending") ∧
    (getFilteredTasks tasks "completed").Sublist tasks ∧
    (∀ t ∈ getFilteredTasks tasks "completed", t.completed = true) ∧
    (∀ t ∈ tasks, t.completed = true → t ∈ getFilteredTasks tasks "completed") ∧
    interleaveBy tasks (getFilteredTasks tasks "completed")
        (getFilteredTasks tasks "pending") =
      getFilteredTasks tasks "all" := by
  refine ⟨rfl, List.filter_sublist tasks, fun t ht => ?_, fun t ht hc => ?_,
    List.filter_sublist tasks, fun t ht => ?_, fun t ht hc => ?_, ?_⟩
  · have h2 := (List.mem_filter.mp ht).2
    simpa using h2
  · exact List.mem_filter.mpr ⟨ht, by simp [hc]⟩
  · exact (List.mem_filter.mp ht).2
  · exact List.mem_filter.mpr ⟨ht, hc⟩
  · show interleaveBy tasks (tasks.filter fun task => task.completed)
        (tasks.filter fun task => !task.completed) = tasks
    induction tasks with
    | nil => rfl
    | cons t ts ih =>
      by_cases h : t.completed = true
      · rw [List.filter_cons_of_pos (by simp [h]),
          List.filter_cons_of_neg (by simp [h])]
        simpa [interleaveBy, h] using ih
      · rw [List.filter_cons_of_neg (by simp_all),
          List.filter_cons_of_pos (by simp_all)]
        simp only [Bool.not_eq_true] at h
        simpa [interleaveBy, h] using ih

/-- Witness for C9 at the sample collection. -/
theorem getFilteredTasks_partition_witness :
    getFilteredTasks demoTasks "all" = demoTasks ∧
    (getFilteredTasks demoTasks "pending").Sublist demoTasks ∧
    (∀ t ∈ getFilteredTasks demoTasks "pending", t.completed = false) ∧
    (∀ t ∈ demoTasks, t.completed = false →
      t ∈ getFilteredTasks demoTasks "pending") ∧
    (getFilteredTasks demoTasks "completed").Sublist demoTasks ∧
    (∀ t ∈ getFilteredTasks demoTasks "completed", t.completed = true) ∧
    (∀ t ∈ demoTasks, t.completed = true →
      t ∈ getFilteredTasks demoTasks "completed") ∧
    interleaveBy demoTasks (getFilteredTasks demoTasks "completed")
        (getFilteredTasks demoTasks "pending") =
      getFilteredTasks demoTasks "all" :=
  getFilteredTasks_partition demoTasks

/-! ### C6: toggling twice with a fixed clock -/

/-- Claim C6 (amended): with a fixed clock, applying `toggleTask id` twice
restores the collection, provided every task's `completedAt` is consistent
with its `completed` flag under that clock (completed tasks carry `now`,
pending tasks carry null).  Without that proviso the second toggle
overwrites a completed task's original `completedAt` with `now`. -/
theorem toggleTask_involutive (tasks : List Task) (id : ℚ) (now : Int)
    (h : ∀ t ∈ tasks, clockConsistent now t) :
    toggleTask (toggleTask tasks id now) id now = tasks := by
  unfold toggleTask
  rw [List.map_map]
  conv_rhs => rw [← List.map_id tasks]
  refine List.map_congr_left fun t ht => ?_
  have hc := h t ht
  unfold clockConsistent at hc
  obtain ⟨tid, ttext, tdesc, tprio, tdue, tcomp, tcreated, tcompAt⟩ := t
  by_cases hid : tid = id <;> cases tcomp <;>
    simp_all

/-- Witness for C6 at the clock-consistent sample collection with now = 5. -/
theorem toggleTask_involutive_witness :
    toggleTask (toggleTask demoClockTasks 2 5) 2 5 = demoClockTasks :=
  toggleTask_involutive demoClockTasks 2 5 (by decide)

/-- Counterexample theorem for C6: double toggle does not restore a
collection whose completed task was completed at a different instant. -/
theorem toggleTask_involutive_cex :
    toggleTask (toggleTask [cexClockTask] 1 5) 1 5 ≠ [cexClockTask] := by
  decide

/-! ### C1: the completedAt / completed invariant -/

/-- Each benign operation preserves the completion invariant. -/
theorem applyOp_completionConsistent (tasks : List Task) (op : Op)
    (hop : keepsCompletion op = true)
    (h : ∀ t ∈ tasks, completionConsistent t = true) :
    ∀ t ∈ applyOp tasks op, completionConsistent t = true := by
  intro t ht
  cases op with
  | add taskData now rand =>
    rcases List.mem_append.mp ht with hold | hnew
    · exact h t hold
    · simp only [List.mem_singleton] at hnew
      subst hnew
      rfl
  | toggle id now =>
    obtain ⟨s, hs, rfl⟩ := List.mem_map.mp ht
    by_cases hid : s.id = id
    · simp only [toggleTask] at *
      cases hc : s.completed <;> simp [completionConsistent, hid, hc]
    · simpa [toggleTask, hid] using h s hs
  | update id updates =>
    obtain ⟨s, hs, rfl⟩ := List.mem_map.mp ht
    simp only [keepsCompletion, Bool.and_eq_true, beq_iff_eq] at hop
    by_cases hid : s.id = id
    · have hinv := h s hs
      simp only [updateTask, hid, if_pos]
      unfold completionConsistent applyPatch at *
      rw [hop.1, hop.2]
      simpa using hinv
    · simpa [updateTask, hid] using h s hs
  | del id =>
    exact h t (List.mem_of_mem_filter ht)
  | clear =>
    exact h t (List.mem_of_mem_filter ht)

/-- Claim C1 (amended): every state reachable from the empty collection by
`addTask`, `toggleTask`, `deleteTask`, `clearCompleted`, and `updateTask`
with patches that do not overwrite `completed` or `completedAt`, satisfies
the invariant "completedAt is present iff completed is true".  (An
`updateTask` patch that sets `completed` without `completedAt` breaks the
invariant — see the counterexample.) -/
theorem completion_invariant (ops : List Op)
    (hops : ∀ op ∈ ops, keepsCompletion op = true) :
    (runOps ops).all completionConsistent = true := by
  rw [List.all_eq_true]
  suffices h : ∀ start : List Task,
      (∀ t ∈ start, completionConsistent t = true) →
      ∀ t ∈ ops.foldl applyOp start, completionConsistent t = true by
    exact h [] (by simp)
  induction ops with
  | nil => intro start hstart; simpa using hstart
  | cons op rest ih =>
    intro start hstart
    simp only [List.foldl_cons]
    exact ih (fun o ho => hops o (List.mem_cons_of_mem _ ho)) _
      (applyOp_completionConsistent start op
        (hops op (List.mem_cons_self _ _)) hstart)

/-- Counterexample for C1 as stated: the state reached by `cexOps` has a
task with `completed = true` and `completedAt = null`. -/
theorem completion_invariant_cex :
    (runOps cexOps).all completionConsistent = false := by
  norm_num [cexOps, runOps, applyOp, addTask, newTask, updateTask,
    applyPatch, completionConsistent, jsTrim]

/-- Witness for C1: the invariant holds after the sample sequence. -/
theorem completion_invariant_witness :
    (runOps demoOps).all completionConsistent = true :=
  completion_invariant demoOps (by decide)

/-! ### C2: id generation cannot guarantee uniqueness -/

/-- Claim C2 (code bug): evaluating the Repository at the failing input.
Two `addTask` calls within the same millisecond whose `Math.random()`
draws coincide do add two tasks (the length grows by two), yet both tasks
receive the same id `Date.now() + Math.random()`, so the ids are not
pairwise distinct — the code cannot deliver the guaranteed uniqueness the
spec requires.  At these inputs (0 + 0) IEEE-754 double addition is exact,
so the rational evaluation coincides with the source's arithmetic; with
full double semantics the collision set is even larger, since distinct
same-millisecond draws within half an ulp of the sum also round to the
same id. -/
theorem duplicate_id_on_same_tick :
    (runAdds [] cexCalls).length = 2 ∧
      ¬ ((runAdds [] cexCalls).map Task.id).Nodup := by
  constructor
  · norm_num [cexCalls, runAdds, addTask]
  · norm_num [cexCalls, runAdds, addTask, newTask, List.nodup_cons]

/-! ### C3: the task constructed by addTask -/

/-- Claim C3 (amended): `addTask` appends exactly one task at the end,
leaving the existing tasks unchanged in order and content; the new task has
the trimmed text, the trimmed description (empty if absent), the draft's
`dueDate`, `completed = false`, `completedAt = null`, `createdAt = now` —
and the draft's `priority` verbatim whenever it is a non-empty string
(even one outside {low, medium, high}), with "medium" only for an absent
or empty priority. -/
theorem addTask_spec (tasks : List Task) (taskData : TaskData) (now : Int)
    (rand : ℚ) :
    addTask tasks taskData now rand = tasks ++ [newTask taskData now rand] ∧
    (addTask tasks taskData now rand).take tasks.length = tasks ∧
    (addTask tasks taskData now rand).length = tasks.length + 1 ∧
    (newTask taskData now rand).text = jsTrim taskData.text ∧
    (newTask taskData now rand).description =
      (taskData.description.map jsTrim).getD "" ∧
    (newTask taskData now rand).priority =
      (taskData.priority.filter fun p => p != "").getD "medium" ∧
    (newTask taskData now rand).dueDate = taskData.dueDate ∧
    (newTask taskData now rand).completed = false ∧
    (newTask taskData now rand).completedAt = none ∧
    (newTask taskData now rand).createdAt = now := by
  refine ⟨rfl, ?_, ?_, rfl, ?_, ?_, rfl, rfl, rfl, rfl⟩
  · simp [addTask]
  · simp [addTask]
  · cases hd : taskData.description with
    | none => simp [newTask, hd]
    | some d =>
      by_cases he : jsTrim d = "" <;> simp [newTask, hd, he]
  · cases hp : taskData.priority with
    | none => simp [newTask, hp, Option.filter]
    | some p =>
      by_cases hpe : p = "" <;> simp [newTask, hp, hpe, Option.filter]

/-- Counterexample for C3 as stated: an invalid priority is stored
verbatim instead of being defaulted to "medium". -/
theorem addTask_spec_cex :
    (newTask cexDraft 0 0).priority = "urgent" ∧
      (newTask cexDraft 0 0).priority ≠ "medium" ∧
      (newTask cexDraft 0 0).priority ∉ (["low", "medium", "high"] : List String) := by
  decide

/-! ### C4: due-date status classification -/

/-- Claim C4: with `d = ceiling((dueDate - now) / one day)`: `d < 0` gives
"overdue" with count `|d|` (pluralized); `d = 0` gives "due today";
`0 < d ≤ 3` gives "due in N days" (pluralized); `d > 3` shows the
formatted date; an unset due date gives no status; and a due date of
yesterday yields "overdue" with count 1.  The first two interval
equivalences ground `d` in the raw time difference. -/
theorem dueDateStatus_spec (due now : Int) :
    dueDateStatus none now = none ∧
    (ceilDiv (due - now) msPerDay < 0 ↔ due ≤ now - msPerDay) ∧
    (ceilDiv (due - now) msPerDay = 0 ↔ now - msPerDay < due ∧ due ≤ now) ∧
    (ceilDiv (due - now) msPerDay < 0 →
      dueDateStatus (some due) now = some
        { status := "overdue"
          label := "Overdue by " ++
            toString (ceilDiv (due - now) msPerDay).natAbs ++ " day" ++
            (if (ceilDiv (due - now) msPerDay).natAbs ≠ 1 then "s" else "")
          cssClass := "due-overdue" }) ∧
    (ceilDiv (due - now) msPerDay = 0 →
      dueDateStatus (some due) now = some
        { status := "today", label := "Due today", cssClass := "due-today" }) ∧
    (0 < ceilDiv (due - now) msPerDay → ceilDiv (due - now) msPerDay ≤ 3 →
      dueDateStatus (some due) now = some
        { status := "soon"
          label := "Due in " ++ toString (ceilDiv (due - now) msPerDay) ++
            " day" ++
            (if ceilDiv (due - now) msPerDay ≠ 1 then "s" else "")
          cssClass := "due-upcoming" }) ∧
    (3 < ceilDiv (due - now) msPerDay →
      dueDateStatus (some due) now = some
        { status := "later", label := "Due " ++ localeDateString due
          cssClass := "due-upcoming" }) ∧
    dueDateStatus (some (now - msPerDay)) now = some
      { status := "overdue", label := "Overdue by 1 day"
        cssClass := "due-overdue" } := by
  have hms : msPerDay = 86400000 := by norm_num [msPerDay]
  have hfd : ∀ x : Int, ceilDiv x msPerDay = -((-x) / 86400000) := fun x => by
    rw [ceilDiv, Int.fdiv_eq_ediv _ (by norm_num [msPerDay]), hms]
  refine ⟨rfl, ?_, ?_, ?_, ?_, ?_, ?_, ?_⟩
  · rw [hfd, hms]; omega
  · rw [hfd, hms]; omega
  · intro h
    simp [dueDateStatus, h]
  · intro h
    have h0 : ¬ ceilDiv (due - now) msPerDay < 0 := by omega
    simp [dueDateStatus, h, h0]
  · intro h1 h2
    have h0 : ¬ ceilDiv (due - now) msPerDay < 0 := by omega
    have hz : ¬ ceilDiv (due - now) msPerDay = 0 := by omega
    simp [dueDateStatus, h0, hz, h2]
  · intro h
    have h0 : ¬ ceilDiv (due - now) msPerDay < 0 := by omega
    have hz : ¬ ceilDiv (due - now) msPerDay = 0 := by omega
    have h3 : ¬ ceilDiv (due - now) msPerDay ≤ 3 := by omega
    simp [dueDateStatus, h0, hz, h3]
  · have h1 : ceilDiv (now - msPerDay - now) msPerDay = -1 := by
      rw [hfd, hms]; omega
    have h2 : ceilDiv (-msPerDay) msPerDay = -1 := by
      rw [hfd, hms]; omega
    simp [dueDateStatus, h1, h2]
    decide

/-- Witness for C4 at due = 0 and now = one day later (the "yesterday"
scenario). -/
theorem dueDateStatus_spec_witness :
    dueDateStatus none 86400000 = none ∧
    (ceilDiv (0 - 86400000) msPerDay < 0 ↔ (0 : Int) ≤ 86400000 - msPerDay) ∧
    (ceilDiv (0 - 86400000) msPerDay = 0 ↔
      86400000 - msPerDay < 0 ∧ (0 : Int) ≤ 86400000) ∧
    (ceilDiv (0 - 86400000) msPerDay < 0 →
      dueDateStatus (some 0) 86400000 = some
        { status := "overdue"
          label := "Overdue by " ++
            toString (ceilDiv (0 - 86400000) msPerDay).natAbs ++ " day" ++
            (if (ceilDiv (0 - 86400000) msPerDay).natAbs ≠ 1 then "s" else "")
          cssClass := "due-overdue" }) ∧
    (ceilDiv (0 - 86400000) msPerDay = 0 →
      dueDateStatus (some 0) 86400000 = some
        { status := "today", label := "Due today", cssClass := "due-today" }) ∧
    (0 < ceilDiv (0 - 86400000) msPerDay → ceilDiv (0 - 86400000) msPerDay ≤ 3 →
      dueDateStatus (some 0) 86400000 = some
        { status := "soon"
          label := "Due in " ++ toString (ceilDiv (0 - 86400000) msPerDay) ++
            " day" ++
            (if ceilDiv (0 - 86400000) msPerDay ≠ 1 then "s" else "")
          cssClass := "due-upcoming" }) ∧
    (3 < ceilDiv (0 - 86400000) msPerDay →
      dueDateStatus (some 0) 86400000 = some
        { status := "later", label := "Due " ++ localeDateString 0
          cssClass := "due-upcoming" }) ∧
    dueDateStatus (some (86400000 - msPerDay)) 86400000 = some
      { status := "overdue", label := "Overdue by 1 day"
        cssClass := "due-overdue" } :=
  dueDateStatus_spec 0 86400000

/-! ### C5: form validation -/

/-- Claim C5 (amended): the "required" error appears iff the title is
empty/whitespace after trimming; the "too long" title error appears iff the
title is non-blank AND its length exceeds 100 (the configured limit is 100;
for a whitespace-only title longer than 100 characters the `else if` keeps
only the "required" error); the description error appears iff the
description exceeds 300 characters; the due-date error appears iff the
entered date's calendar day is strictly before `now`'s calendar day; no
other errors are produced. -/
theorem validateForm_spec (formData : FormData) (now : Int) :
    ((validateForm formData now).text = some "Task title is required" ↔
      jsTrim formData.text = "") ∧
    ((validateForm formData now).text =
        some "Title cannot exceed 100 characters" ↔
      (jsTrim formData.text ≠ "" ∧ formData.text.length > 100)) ∧
    ((validateForm formData now).text = none ↔
      (jsTrim formData.text ≠ "" ∧ formData.text.length ≤ 100)) ∧
    ((validateForm formData now).description =
        some "Description cannot exceed 300 characters" ↔
      formData.description.length > 300) ∧
    ((validateForm formData now).description = none ↔
      formData.description.length ≤ 300) ∧
    ((validateForm formData now).dueDate =
        some "Due date cannot be in the past" ↔
      (∃ d, formData.dueDate = some d ∧
        d.fdiv msPerDay < now.fdiv msPerDay)) ∧
    ((validateForm formData now).dueDate = none ↔
      (∀ d, formData.dueDate = some d →
        now.fdiv msPerDay ≤ d.fdiv msPerDay)) := by
  have hms : msPerDay = 86400000 := by norm_num [msPerDay]
  have he : ∀ x : Int, x.fdiv msPerDay = x / 86400000 := fun x => by
    rw [Int.fdiv_eq_ediv _ (by norm_num [msPerDay]), hms]
  refine ⟨?_, ?_, ?_, ?_, ?_, ?_, ?_⟩
  · by_cases h1 : jsTrim formData.text = "" <;>
      by_cases h2 : formData.text.length > 100 <;>
      simp [validateForm, h1, h2]
  · by_cases h1 : jsTrim formData.text = "" <;>
      by_cases h2 : formData.text.length > 100 <;>
      simp [validateForm, h1, h2]
  · by_cases h1 : jsTrim formData.text = ""
    · by_cases h2 : formData.text.length > 100 <;> simp [validateForm, h1, h2]
    · by_cases h2 : formData.text.length > 100
      · simp [validateForm, h1, h2]
      · simp [validateForm, h1, h2]
        omega
  · by_cases hd : formData.description.length > 300
    · have hne : formData.description ≠ "" := by
        intro hemp
        rw [hemp] at hd
        simp at hd
      simp [validateForm, hd, hne]
    · simp [validateForm, hd]
  · by_cases hd : formData.description.length > 300
    · have hne : formData.description ≠ "" := by
        intro hemp
        rw [hemp] at hd
        simp at hd
      simp [validateForm, hd, hne]
    · simp [validateForm, hd]
      omega
  · cases hdo : formData.dueDate with
    | none => simp [validateForm, hdo]
    | some d =>
      have hiff : d < dayStart now ↔ d / 86400000 < now / 86400000 := by
        unfold dayStart
        rw [he, hms]
        omega
      by_cases hlt : d < dayStart now
      · simp [validateForm, hdo, hlt, he]
        exact hiff.mp hlt
      · simp [validateForm, hdo, hlt, he]
        omega
  · cases hdo : formData.dueDate with
    | none => simp [validateForm, hdo]
    | some d =>
      have hiff : d < dayStart now ↔ d / 86400000 < now / 86400000 := by
        unfold dayStart
        rw [he, hms]
        omega
      by_cases hlt : d < dayStart now
      · simp [validateForm, hdo, hlt, he]
        omega
      · simp [validateForm, hdo, hlt, he]
        omega

/-- Counterexample for C5 as stated: a 101-space title exceeds the length
limit yet gets only the "required" error, not the "too long" error. -/
theorem validateForm_spec_cex :
    cexForm.text.length > 100 ∧
      (validateForm cexForm 0).text = some "Task title is required" ∧
      (validateForm cexForm 0).text ≠
        some "Title cannot exceed 100 characters" := by
  decide

/-- Witness for C5 at the sample form with now = 0. -/
theorem validateForm_spec_witness :
    ((validateForm demoForm 0).text = some "Task title is required" ↔
      jsTrim demoForm.text = "") ∧
    ((validateForm demoForm 0).text =
        some "Title cannot exceed 100 characters" ↔
      (jsTrim demoForm.text ≠ "" ∧ demoForm.text.length > 100)) ∧
    ((validateForm demoForm 0).text = none ↔
      (jsTrim demoForm.text ≠ "" ∧ demoForm.text.length ≤ 100)) ∧
    ((validateForm demoForm 0).description =
        some "Description cannot exceed 300 characters" ↔
      demoForm.description.length > 300) ∧
    ((validateForm demoForm 0).description = none ↔
      demoForm.description.length ≤ 300) ∧
    ((validateForm demoForm 0).dueDate =
        some "Due date cannot be in the past" ↔
      (∃ d, demoForm.dueDate = some d ∧
        d.fdiv msPerDay < (0 : Int).fdiv msPerDay)) ∧
    ((validateForm demoForm 0).dueDate = none ↔
      (∀ d, demoForm.dueDate = some d →
        (0 : Int).fdiv msPerDay ≤ d.fdiv msPerDay)) :=
  validateForm_spec demoForm 0

end TaskTodo
